import Mathlib

/-!
Verification of the payment-confirmation / order-status reconciliation
workflow of the Al-Mubrak backend.

The embedding below is a shallow model of the handlers in
`src/controllers/email.controller.js`:

* `confirmPayment`                   (lines ~1216-1355)
* `getPaymentTransactions`           (lines ~1376-1430) with the
  `formatTransactionRow` and `getOrderDetailsMap` helpers
* `mapTransactionStatusToOrderStatus` (lines ~1432-1441)
* `updatePaymentTransactionStatus`   (lines ~1443-1561)

Modelling conventions:
* MySQL tables are Lean lists of rows; `SHOW TABLES` / `SHOW COLUMNS`
  probes are boolean flags on the database state.
* JavaScript `undefined` / `null` / string values flow through the
  handlers with truthiness tests (`x || y`); optional string values are
  `Option String` and JS truthiness is `jsTruthy` (both `null` and the
  empty string are falsy).
* `DECIMAL` amounts are modelled at integer granularity (`Int`); a JS
  `parseFloat` failure (`NaN`) is `none`.
* Timestamps (`Date.now()`, `CURRENT_TIMESTAMP`) are abstract `Nat`
  clock values supplied as explicit arguments.
* `UPDATE ... WHERE id = ?` result's `affectedRows` follows the driver's
  default `FOUND_ROWS` connection flag: it counts matched rows.
-/

namespace AlMubrak

/-- JS truthiness for an optional string: `null`/`undefined` and the empty
string are falsy, every other string is truthy. -/
def jsTruthy : Option String → Bool
  | none => false
  | some s => !(s == "")

/-- JS `a || b` on optional strings. -/
def jsOr (a b : Option String) : Option String :=
  if jsTruthy a then a else b

/-- `s.toLowerCase()` (ASCII range, which covers every status token the
handlers compare against). Defined over the character list so that it
evaluates by kernel reduction. -/
def lowerStr (s : String) : String := ⟨s.data.map Char.toLower⟩

/-- The JS regex test `/^\d+$/.test(s)`: `s` is non-empty and all digits. -/
def allDigits (s : String) : Bool :=
  !s.data.isEmpty && s.data.all (fun c => '0' ≤ c && c ≤ '9')

/-- `Number(s)` for a string of decimal digits. -/
def digitsVal (s : String) : Nat :=
  s.data.foldl (fun acc c => acc * 10 + (c.toNat - 48)) 0

/-- A row of the `payment_confirmations` table. -/
structure TransactionRow where
  id : Nat
  order_id : Option String
  payment_method : String
  amount : Int
  customer_name : Option String
  customer_email : Option String
  customer_phone : Option String
  transaction_reference : String
  notes : Option String
  status : String
  order_type : String
  created_at : Nat
  updated_at : Nat
deriving Repr, DecidableEq

/-- A row of the `orders` or `pickup_orders` table (only the columns the
reconciliation workflow reads or writes). -/
structure OrderRow where
  id : Nat
  order_id : Option String
  status : String
  customer_name : Option String
  customer_email : Option String
  customer_phone : Option String
deriving Repr, DecidableEq

/-- The mutable database state seen by the payment handlers. The
`...Exists` / `...HasOrderIdCol` booleans model the runtime
`SHOW TABLES` / `SHOW COLUMNS` probes of the source. `nextId` is the
`AUTO_INCREMENT` counter of `payment_confirmations`. -/
structure DB where
  confirmationsTableExists : Bool
  ordersTableExists : Bool
  pickupTableExists : Bool
  ordersHasOrderIdCol : Bool
  pickupHasOrderIdCol : Bool
  nextId : Nat
  transactions : List TransactionRow
  orders : List OrderRow
  pickup_orders : List OrderRow
deriving Repr, DecidableEq

/-- An empty store, before any table has been created:
`AUTO_INCREMENT` starts at 1, the order tables exist (owned by the order
module) but the optional `order_id` text column is absent. -/
def emptyDB : DB :=
  { confirmationsTableExists := false
    ordersTableExists := true
    pickupTableExists := true
    ordersHasOrderIdCol := false
    pickupHasOrderIdCol := false
    nextId := 1
    transactions := []
    orders := []
    pickup_orders := [] }

/-! ### create — `confirmPayment` -/

/-- The request body of `POST /payments/confirm` as destructured by
`confirmPayment`. `none` is an absent (or JS `null`) field; `amount` is
the `parseFloat` result, `none` meaning `NaN`. -/
structure CreateInput where
  order_id : Option String := none
  payment_method : String := ""
  amount : Option Int := some 0
  customer_name : Option String := none
  customer_email : Option String := none
  customer_phone : Option String := none
  transaction_reference : Option String := none
  notes : Option String := none
  order_type : Option String := none
deriving Repr, DecidableEq

inductive CreateError
  | paymentMethodRequired
deriving Repr, DecidableEq

/-- The `data` object of the 200 response of `confirmPayment`. -/
structure CreateResponse where
  id : Nat
  order_id : Option String
  status : String
deriving Repr, DecidableEq

/-- The row inserted by `confirmPayment` (the `INSERT` lists no `status`
column, so the table default `pending` applies; `amount` is
`parseFloat(amount) || 0`; `transaction_reference` is
`transactionReference || TRANS-<Date.now()>`; the other optional fields
are stored with `x || null`). -/
def createdRow (db : DB) (i : CreateInput) (now : Nat) : TransactionRow :=
  { id := db.nextId
    order_id := jsOr i.order_id none
    payment_method := i.payment_method
    amount := match i.amount with | none => 0 | some v => v
    customer_name := jsOr i.customer_name none
    customer_email := jsOr i.customer_email none
    customer_phone := jsOr i.customer_phone none
    transaction_reference :=
      match jsOr i.transaction_reference none with
      | some v => v
      | none => "TRANS-" ++ toString now
    notes := jsOr i.notes none
    status := "pending"
    order_type :=
      match jsOr i.order_type none with
      | some v => v
      | none => "delivery"
    created_at := now
    updated_at := now }

/-- `confirmPayment` (src/controllers/email.controller.js ~1216-1355):
validates `payment_method`, ensures the table exists, and inserts one row.
The confirmation email is fire-and-forget and does not touch the
database. -/
def confirmPayment (db : DB) (i : CreateInput) (now : Nat) :
    Except CreateError (DB × CreateResponse) :=
  if i.payment_method = "" then
    .error .paymentMethodRequired
  else
    let row := createdRow db i now
    let db' : DB :=
      { db with
        confirmationsTableExists := true
        nextId := db.nextId + 1
        transactions := db.transactions ++ [row] }
    .ok (db', { id := row.id, order_id := i.order_id, status := "pending" })

/-! ### transition — `updatePaymentTransactionStatus` -/

/-- The request body of `PATCH /payments/transactions/:id/status`;
`notes = none` models an absent (`undefined`) field, so the source's
`notes !== undefined` guard skips the notes column. -/
structure TransitionRequest where
  status : Option String := none
  action : Option String := none
  notes : Option String := none
deriving Repr, DecidableEq

inductive TransitionError
  | validationError
  | tableNotFound
  | notFound
deriving Repr, DecidableEq

/-- `let nextStatus = (rawStatus || '').toString().toLowerCase();
if (!nextStatus && action) ...` — the direct-status shape is lowercased,
the action shape is compared case-sensitively against the exact strings
`approve` and `decline`. -/
def resolveNextStatus (rawStatus action : Option String) : String :=
  let ns := lowerStr (rawStatus.getD "")
  if ns = "" then
    match action with
    | some a =>
        if a = "approve" then "verified"
        else if a = "decline" then "rejected"
        else ""
    | none => ""
  else ns

def allowedStatuses : List String := ["pending", "verified", "rejected"]

/-- `mapTransactionStatusToOrderStatus` (email.controller.js ~1432). -/
def mapTransactionStatusToOrderStatus (status : String) : Option String :=
  if status = "verified" then some "successful"
  else if status = "rejected" then some "failed"
  else none

/-- `formatTransactionRow` restricted to the stored columns (nullable
`status` / `order_type` fall back to `pending` / `delivery`). -/
def formatTransactionRow (row : TransactionRow) : TransactionRow :=
  { row with
    status := if row.status = "" then "pending" else row.status
    order_type := if row.order_type = "" then "delivery" else row.order_type }

/-- The per-row effect of
`UPDATE payment_confirmations SET status = ?[, notes = ?], updated_at =
CURRENT_TIMESTAMP WHERE id = ?`. -/
def applyUpdate (nextStatus : String) (reqNotes : Option String) (now : Nat)
    (t : TransactionRow) : TransactionRow :=
  { t with
    status := nextStatus
    notes :=
      match reqNotes with
      | none => t.notes
      | some v => if v = "" then none else some v
    updated_at := now }

/-- `UPDATE ... WHERE <p> LIMIT 1`: rewrite the first row satisfying `p`. -/
def updateFirst (p : OrderRow → Bool) (f : OrderRow → OrderRow) :
    List OrderRow → List OrderRow
  | [] => []
  | o :: rest => if p o then f o :: rest else o :: updateFirst p f rest

def setStatus (s : String) (o : OrderRow) : OrderRow := { o with status := s }

/-- The two-attempt propagation against one order table: update by numeric
primary key first (`affectedRows` counts matched rows), then — only if
that matched nothing and the table has an `order_id` column — update by
the textual `order_id` column. -/
def propagateTable (hasOrderIdCol : Bool) (oid statusToSet : String)
    (table : List OrderRow) : List OrderRow :=
  let isNum := allDigits oid
  let n := digitsVal oid
  let orderUpdated := isNum && table.any (fun o => o.id == n)
  let table1 :=
    if isNum then updateFirst (fun o => o.id == n) (setStatus statusToSet) table
    else table
  if !orderUpdated && hasOrderIdCol then
    updateFirst (fun o => o.order_id == some oid) (setStatus statusToSet) table1
  else table1

/-- The derived order/pickup status chosen by `updatePaymentTransactionStatus`
from `targetOrderStatus` (= `mapTransactionStatusToOrderStatus nextStatus`). -/
def deriveOrderStatus (isPickup : Bool) (targetOrderStatus : String) : String :=
  if isPickup && targetOrderStatus == "successful" then "pending"
  else if !isPickup && targetOrderStatus == "successful" then "processing"
  else if targetOrderStatus == "failed" then "canceled"
  else targetOrderStatus

/-- The propagation block of `updatePaymentTransactionStatus`
(~1511-1556): runs only when `mapTransactionStatusToOrderStatus` yields a
target and the (formatted) transaction has a truthy `order_id`; selects
`pickup_orders` or `orders` by `order_type`, checks the table exists, and
applies the two-attempt update. -/
def propagateOrderStatus (db : DB) (t : TransactionRow) (nextStatus : String) : DB :=
  match mapTransactionStatusToOrderStatus nextStatus with
  | none => db
  | some targetOrderStatus =>
    match t.order_id with
    | none => db
    | some oid =>
      if oid = "" then db
      else if t.order_type == "pickup" then
        if db.pickupTableExists then
          { db with
            pickup_orders :=
              propagateTable db.pickupHasOrderIdCol oid
                (deriveOrderStatus true targetOrderStatus) db.pickup_orders }
        else db
      else
        if db.ordersTableExists then
          { db with
            orders :=
              propagateTable db.ordersHasOrderIdCol oid
                (deriveOrderStatus false targetOrderStatus) db.orders }
        else db

/-- The whole-table effect of the `UPDATE ... WHERE id = ?` statement on
`payment_confirmations`. -/
def updateTransactions (db : DB) (id : Nat) (nextStatus : String)
    (reqNotes : Option String) (now : Nat) : DB :=
  { db with
    transactions :=
      db.transactions.map
        (fun t => if t.id == id then applyUpdate nextStatus reqNotes now t else t) }

/-- `updatePaymentTransactionStatus` (email.controller.js ~1443-1561):
resolve the requested status, validate it, check table and row existence,
update the transaction row, then propagate the derived order status.
Returns the formatted updated transaction. -/
def updatePaymentTransactionStatus (db : DB) (id : Nat)
    (req : TransitionRequest) (now : Nat) :
    Except TransitionError (DB × TransactionRow) :=
  let nextStatus := resolveNextStatus req.status req.action
  if !(allowedStatuses.contains nextStatus) then
    .error .validationError
  else if !db.confirmationsTableExists then
    .error .tableNotFound
  else
    match db.transactions.find? (fun t => t.id == id) with
    | none => .error .notFound
    | some existing =>
      let db1 := updateTransactions db id nextStatus req.notes now
      let updatedTransaction := formatTransactionRow (applyUpdate nextStatus req.notes now existing)
      let db2 := propagateOrderStatus db1 updatedTransaction nextStatus
      .ok (db2, updatedTransaction)

/-! ### list — `getPaymentTransactions` -/

/-- The shape of one entry of the `GET /payments/transactions` response
(after `formatTransactionRow`, the order-detail backfill and the final
presentation mapping; `customer_name` is a plain string because the final
`row.customer_name || '—'` never leaves it null). -/
structure DisplayRow where
  id : Nat
  order_id : Option String
  payment_method : String
  amount : Int
  customer_name : String
  customer_email : Option String
  customer_phone : Option String
  transaction_reference : String
  notes : Option String
  status : String
  order_type : String
  created_at : Nat
  updated_at : Nat
deriving Repr, DecidableEq

/-- `getOrderDetailsMap` + `orderDetails.get(row.order_id.toString())`:
the batched map lookup succeeds exactly when `order_id` is purely numeric
and the `orders` table has a row with that primary key. -/
def lookupOrderDetails (db : DB) (oid : String) : Option OrderRow :=
  if db.ordersTableExists && allDigits oid then
    db.orders.find? (fun o => o.id == digitsVal oid)
  else none

/-- The order-detail backfill step of `getPaymentTransactions`: for a
truthy `order_id` with a matching order, fill each blank customer field
from the order (`formatted.x = formatted.x || lookup.x || null`). Returns
(name, email, phone) before the name fallback and the final presentation
mapping. -/
def backfillCustomer (db : DB) (f : TransactionRow) :
    Option String × Option String × Option String :=
  if jsTruthy f.order_id then
    match lookupOrderDetails db (f.order_id.getD "") with
    | some o =>
        (jsOr f.customer_name (jsOr o.customer_name none),
         jsOr f.customer_email (jsOr o.customer_email none),
         jsOr f.customer_phone (jsOr o.customer_phone none))
    | none => (f.customer_name, f.customer_email, f.customer_phone)
  else (f.customer_name, f.customer_email, f.customer_phone)

/-- One row of the response of `getPaymentTransactions`: format, backfill,
then the name fallback `customer_name = customer_email || customer_phone
|| null` and the final mapping `customer_name || '—'`,
`customer_email || null`, `customer_phone || null`. -/
def formatListRow (db : DB) (row : TransactionRow) : DisplayRow :=
  let f := formatTransactionRow row
  let b := backfillCustomer db f
  let name := if jsTruthy b.1 then b.1 else jsOr b.2.1 (jsOr b.2.2 none)
  { id := f.id
    order_id := f.order_id
    payment_method := f.payment_method
    amount := f.amount
    customer_name :=
      match name with
      | some s => if s = "" then "—" else s
      | none => "—"
    customer_email := jsOr b.2.1 none
    customer_phone := jsOr b.2.2 none
    transaction_reference := f.transaction_reference
    notes := f.notes
    status := f.status
    order_type := f.order_type
    created_at := f.created_at
    updated_at := f.updated_at }

/-- Stable insertion into a list sorted by `created_at` descending. -/
def insertDesc (t : TransactionRow) : List TransactionRow → List TransactionRow
  | [] => [t]
  | x :: xs => if t.created_at > x.created_at then t :: x :: xs else x :: insertDesc t xs

/-- `ORDER BY created_at DESC` (stable insertion sort). -/
def sortByCreatedDesc (l : List TransactionRow) : List TransactionRow :=
  l.foldr insertDesc []

/-- `getPaymentTransactions`: empty when the table is missing, otherwise
all rows ordered by `created_at DESC`, formatted and backfilled. -/
def getPaymentTransactions (db : DB) : List DisplayRow :=
  if !db.confirmationsTableExists then []
  else (sortByCreatedDesc db.transactions).map (formatListRow db)

/-! ### operation sequences -/

/-- One externally triggered operation on the store. -/
inductive Op
  | create (i : CreateInput) (now : Nat)
  | transition (id : Nat) (req : TransitionRequest) (now : Nat)

/-- Run one operation; a failed handler leaves the database unchanged
(every error is returned before the first write). -/
def applyOp (db : DB) : Op → DB
  | .create i now =>
      match confirmPayment db i now with
      | .ok (db', _) => db'
      | .error _ => db
  | .transition id req now =>
      match updatePaymentTransactionStatus db id req now with
      | .ok (db', _) => db'
      | .error _ => db

/-- Run a sequence of operations from an initial state. -/
def run (db : DB) (ops : List Op) : DB := ops.foldl applyOp db

/-- Status of the transaction with the given id, if any. -/
def statusOf (db : DB) (id : Nat) : Option String :=
  (db.transactions.find? (fun t => t.id == id)).map (fun t => t.status)

example :
    (confirmPayment emptyDB { payment_method := "bank_transfer", order_id := some "42" } 5).isOk = true := by
  decide

example :
    statusOf (run emptyDB
      [.create { payment_method := "bank_transfer", order_id := some "42" } 5,
       .transition 1 { action := some "approve" } 6]) 1 = some "verified" := by
  decide

/-! ### helper lemmas -/

theorem updateFirst_find? {p : OrderRow → Bool} {f : OrderRow → OrderRow}
    (hp : ∀ o, p (f o) = p o) (l : List OrderRow) :
    (updateFirst p f l).find? p = (l.find? p).map f := by
  induction l with
  | nil => rfl
  | cons o rest ih =>
    by_cases h : p o = true
    · simp [updateFirst, h, List.find?, hp]
    · simp only [Bool.not_eq_true] at h
      simp [updateFirst, h, List.find?, ih]

theorem updateFirst_of_not_any {p : OrderRow → Bool} {f : OrderRow → OrderRow}
    {l : List OrderRow} (h : l.any p = false) :
    updateFirst p f l = l := by
  induction l with
  | nil => rfl
  | cons o rest ih =>
    simp only [List.any_cons, Bool.or_eq_false_iff] at h
    simp [updateFirst, h.1, ih h.2]

theorem updateFirst_any {p q : OrderRow → Bool} {f : OrderRow → OrderRow}
    (hq : ∀ o, q (f o) = q o) (l : List OrderRow) :
    (updateFirst p f l).any q = l.any q := by
  induction l with
  | nil => rfl
  | cons o rest ih =>
    by_cases h : p o = true
    · simp [updateFirst, h, hq]
    · simp only [Bool.not_eq_true] at h
      simp [updateFirst, h, ih]

theorem updateFirst_idem {p : OrderRow → Bool} {f : OrderRow → OrderRow}
    (hp : ∀ o, p (f o) = p o) (hf : ∀ o, f (f o) = f o) (l : List OrderRow) :
    updateFirst p f (updateFirst p f l) = updateFirst p f l := by
  induction l with
  | nil => rfl
  | cons o rest ih =>
    by_cases h : p o = true
    · simp [updateFirst, h, hp, hf]
    · simp only [Bool.not_eq_true] at h
      simp [updateFirst, h, ih]

theorem setStatus_id (s : String) (o : OrderRow) : (setStatus s o).id = o.id := rfl

theorem setStatus_order_id (s : String) (o : OrderRow) :
    (setStatus s o).order_id = o.order_id := rfl

theorem setStatus_idem (s : String) (o : OrderRow) :
    setStatus s (setStatus s o) = setStatus s o := rfl

/-- Case split: a numeric order id matching some primary key makes the
propagation exactly the update-by-id attempt. -/
theorem propagateTable_of_num_match {oid : String} (hnum : allDigits oid = true)
    (hasCol : Bool) (s : String) {table : List OrderRow}
    (hany : table.any (fun x => x.id == digitsVal oid) = true) :
    propagateTable hasCol oid s table
      = updateFirst (fun x => x.id == digitsVal oid) (setStatus s) table := by
  simp [propagateTable, hnum, hany]

/-- Case split: a numeric order id matching no primary key leaves only the
fallback update-by-`order_id`-column attempt. -/
theorem propagateTable_of_no_num_match {oid : String} (hnum : allDigits oid = true)
    (hasCol : Bool) (s : String) {table : List OrderRow}
    (hany : table.any (fun x => x.id == digitsVal oid) = false) :
    propagateTable hasCol oid s table
      = if hasCol then
          updateFirst (fun x => x.order_id == some oid) (setStatus s) table
        else table := by
  have h1 : updateFirst (fun x => x.id == digitsVal oid) (setStatus s) table = table :=
    updateFirst_of_not_any hany
  simp [propagateTable, hnum, hany, h1]

/-- Case split: a non-numeric order id leaves only the fallback attempt. -/
theorem propagateTable_of_not_num {oid : String} (hnum : allDigits oid = false)
    (hasCol : Bool) (s : String) (table : List OrderRow) :
    propagateTable hasCol oid s table
      = if hasCol then
          updateFirst (fun x => x.order_id == some oid) (setStatus s) table
        else table := by
  simp [propagateTable, hnum]

/-- When the target table has a row whose primary key equals the numeric
order id, the propagation rewrites (exactly) the first such row's status. -/
theorem propagateTable_find? {oid : String} (hnum : allDigits oid = true)
    (hasCol : Bool) (s : String) {table : List OrderRow} {o : OrderRow}
    (hfind : table.find? (fun x => x.id == digitsVal oid) = some o) :
    (propagateTable hasCol oid s table).find? (fun x => x.id == digitsVal oid)
      = some (setStatus s o) := by
  have hmem := List.mem_of_find?_eq_some hfind
  have hpo := List.find?_some hfind
  have hany : table.any (fun x => x.id == digitsVal oid) = true :=
    List.any_eq_true.mpr ⟨o, hmem, hpo⟩
  rw [propagateTable_of_num_match hnum hasCol s hany,
    updateFirst_find? (p := fun x => x.id == digitsVal oid) (f := setStatus s)
      (fun x => rfl) table, hfind]
  rfl

/-- Propagating the same transaction status twice leaves the table exactly
as after the first propagation. -/
theorem propagateTable_idem (hasCol : Bool) (oid s : String) (table : List OrderRow) :
    propagateTable hasCol oid s (propagateTable hasCol oid s table)
      = propagateTable hasCol oid s table := by
  by_cases hnum : allDigits oid = true
  · by_cases hany : table.any (fun x => x.id == digitsVal oid) = true
    · rw [propagateTable_of_num_match hnum hasCol s hany]
      have hany2 :
          (updateFirst (fun x => x.id == digitsVal oid) (setStatus s) table).any
            (fun x => x.id == digitsVal oid) = true := by
        rw [updateFirst_any (p := fun x => x.id == digitsVal oid)
          (q := fun x => x.id == digitsVal oid) (f := setStatus s) (fun x => rfl) table]
        exact hany
      rw [propagateTable_of_num_match hnum hasCol s hany2]
      exact updateFirst_idem (p := fun x => x.id == digitsVal oid) (f := setStatus s)
        (fun x => rfl) (setStatus_idem s) table
    · simp only [Bool.not_eq_true] at hany
      rw [propagateTable_of_no_num_match hnum hasCol s hany]
      by_cases hcol : hasCol = true
      · subst hcol
        simp only [if_true]
        have hany2 :
            (updateFirst (fun x => x.order_id == some oid) (setStatus s) table).any
              (fun x => x.id == digitsVal oid) = false := by
          rw [updateFirst_any (p := fun x => x.order_id == some oid)
            (q := fun x => x.id == digitsVal oid) (f := setStatus s) (fun x => rfl) table]
          exact hany
        rw [propagateTable_of_no_num_match hnum true s hany2, if_pos rfl]
        exact updateFirst_idem (p := fun x => x.order_id == some oid) (f := setStatus s)
          (fun x => rfl) (setStatus_idem s) table
      · simp only [Bool.not_eq_true] at hcol
        subst hcol
        simp only [Bool.false_eq_true, if_false]
        rw [propagateTable_of_no_num_match hnum false s hany]
        simp
  · simp only [Bool.not_eq_true] at hnum
    rw [propagateTable_of_not_num hnum hasCol s table]
    by_cases hcol : hasCol = true
    · subst hcol
      simp only [if_true]
      rw [propagateTable_of_not_num hnum true s
        (updateFirst (fun x => x.order_id == some oid) (setStatus s) table), if_pos rfl]
      exact updateFirst_idem (p := fun x => x.order_id == some oid) (f := setStatus s)
        (fun x => rfl) (setStatus_idem s) table
    · simp only [Bool.not_eq_true] at hcol
      subst hcol
      simp only [Bool.false_eq_true, if_false]
      rw [propagateTable_of_not_num hnum false s table]
      simp

/-- Propagation never touches the `payment_confirmations` table. -/
theorem propagateOrderStatus_transactions (db : DB) (t : TransactionRow) (s : String) :
    (propagateOrderStatus db t s).transactions = db.transactions := by
  unfold propagateOrderStatus
  repeat' split
  all_goals rfl

/-- Propagation never touches the schema flags or the id counter. -/
theorem propagateOrderStatus_frame (db : DB) (t : TransactionRow) (s : String) :
    (propagateOrderStatus db t s).confirmationsTableExists = db.confirmationsTableExists ∧
    (propagateOrderStatus db t s).ordersTableExists = db.ordersTableExists ∧
    (propagateOrderStatus db t s).pickupTableExists = db.pickupTableExists ∧
    (propagateOrderStatus db t s).ordersHasOrderIdCol = db.ordersHasOrderIdCol ∧
    (propagateOrderStatus db t s).pickupHasOrderIdCol = db.pickupHasOrderIdCol ∧
    (propagateOrderStatus db t s).nextId = db.nextId := by
  unfold propagateOrderStatus
  repeat' split
  all_goals exact ⟨rfl, rfl, rfl, rfl, rfl, rfl⟩

/-- Inversion of a successful transition: recover the checks that must
have passed and the exact shape of the updated state. -/
theorem transition_ok_inv {db : DB} {id : Nat} {req : TransitionRequest} {now : Nat}
    {db' : DB} {t : TransactionRow}
    (h : updatePaymentTransactionStatus db id req now = .ok (db', t)) :
    ∃ existing,
      allowedStatuses.contains (resolveNextStatus req.status req.action) = true ∧
      db.confirmationsTableExists = true ∧
      db.transactions.find? (fun x => x.id == id) = some existing ∧
      t = formatTransactionRow
            (applyUpdate (resolveNextStatus req.status req.action) req.notes now existing) ∧
      db' = propagateOrderStatus
              (updateTransactions db id (resolveNextStatus req.status req.action) req.notes now)
              t (resolveNextStatus req.status req.action) := by
  simp only [updatePaymentTransactionStatus] at h
  split at h
  · simp at h
  · split at h
    · simp at h
    · split at h
      · simp at h
      · rename_i hns htab x existing hfind
        simp only [Except.ok.injEq, Prod.mk.injEq] at h
        refine ⟨existing, ?_, ?_, hfind, h.2.symm, ?_⟩
        · simpa using hns
        · simpa using htab
        · rw [← h.2]; exact h.1.symm

theorem allowed_cases {s : String} (h : allowedStatuses.contains s = true) :
    s = "pending" ∨ s = "verified" ∨ s = "rejected" := by
  simpa [allowedStatuses] using h

theorem allowed_ne_empty {s : String} (h : allowedStatuses.contains s = true) : s ≠ "" := by
  rcases allowed_cases h with h' | h' | h' <;> subst h' <;> decide

theorem allDigits_ne_empty {s : String} (h : allDigits s = true) : s ≠ "" := by
  intro he
  subst he
  exact absurd h (by decide)

theorem updateTransactions_orders (db : DB) (id : Nat) (ns : String)
    (rn : Option String) (now : Nat) :
    (updateTransactions db id ns rn now).orders = db.orders := rfl

theorem updateTransactions_pickup (db : DB) (id : Nat) (ns : String)
    (rn : Option String) (now : Nat) :
    (updateTransactions db id ns rn now).pickup_orders = db.pickup_orders := rfl

/-- The status of the returned (formatted) transaction determines the
resolved status, as soon as the latter is an allowed one. -/
theorem formatted_status {ns : String} {rn : Option String} {now : Nat}
    {existing t : TransactionRow}
    (ht : t = formatTransactionRow (applyUpdate ns rn now existing))
    (hne : ns ≠ "") : t.status = ns := by
  subst ht
  simp [formatTransactionRow, applyUpdate, hne]

/-- Propagation with a delivery-type transaction, a truthy order id and a
propagating target status rewrites exactly the `orders` table. -/
theorem propagateOrderStatus_delivery (d : DB) {t : TransactionRow} {ns oid tos : String}
    (hoid : t.order_id = some oid) (hne : oid ≠ "")
    (htype : (t.order_type == "pickup") = false)
    (htab : d.ordersTableExists = true)
    (hmap : mapTransactionStatusToOrderStatus ns = some tos) :
    (propagateOrderStatus d t ns).orders
        = propagateTable d.ordersHasOrderIdCol oid (deriveOrderStatus false tos) d.orders ∧
    (propagateOrderStatus d t ns).pickup_orders = d.pickup_orders := by
  unfold propagateOrderStatus
  rw [hmap, hoid]
  simp [hne, htype, htab]

/-- Propagation with a pickup-type transaction, a truthy order id and a
propagating target status rewrites exactly the `pickup_orders` table. -/
theorem propagateOrderStatus_pickup (d : DB) {t : TransactionRow} {ns oid tos : String}
    (hoid : t.order_id = some oid) (hne : oid ≠ "")
    (htype : (t.order_type == "pickup") = true)
    (htab : d.pickupTableExists = true)
    (hmap : mapTransactionStatusToOrderStatus ns = some tos) :
    (propagateOrderStatus d t ns).pickup_orders
        = propagateTable d.pickupHasOrderIdCol oid (deriveOrderStatus true tos) d.pickup_orders ∧
    (propagateOrderStatus d t ns).orders = d.orders := by
  unfold propagateOrderStatus
  rw [hmap, hoid]
  simp [hne, htype, htab]

/-- A non-propagating resolved status (`mapTransactionStatusToOrderStatus`
returns nothing) leaves the whole database untouched. -/
theorem propagateOrderStatus_none {db : DB} {t : TransactionRow} {ns : String}
    (hmap : mapTransactionStatusToOrderStatus ns = none) :
    propagateOrderStatus db t ns = db := by
  unfold propagateOrderStatus
  rw [hmap]

/-! ### C1 -/

/-- C1: a successful transition whose resolved status is `verified`, on a
`delivery`-type transaction whose `orderId` numerically matches an existing
`orders` row, sets that order's status to `processing`; on a `pickup`-type
transaction it sets the matching `pickup_orders` row's status to
`pending`; with resolved status `rejected` the matching order/pickup row's
status becomes `canceled` for either order type; and with resolved status
`pending` no order or pickup row is updated. -/
theorem c1_transition_propagates_derived_order_status
    (db : DB) (id : Nat) (req : TransitionRequest) (now : Nat)
    (db' : DB) (t : TransactionRow)
    (h : updatePaymentTransactionStatus db id req now = .ok (db', t)) :
    (∀ oid o, t.status = "verified" → t.order_type = "delivery" →
       t.order_id = some oid → allDigits oid = true →
       db.ordersTableExists = true →
       db.orders.find? (fun x => x.id == digitsVal oid) = some o →
       ∃ o', db'.orders.find? (fun x => x.id == digitsVal oid) = some o' ∧
         o'.status = "processing") ∧
    (∀ oid o, t.status = "verified" → t.order_type = "pickup" →
       t.order_id = some oid → allDigits oid = true →
       db.pickupTableExists = true →
       db.pickup_orders.find? (fun x => x.id == digitsVal oid) = some o →
       ∃ o', db'.pickup_orders.find? (fun x => x.id == digitsVal oid) = some o' ∧
         o'.status = "pending") ∧
    (∀ oid o, t.status = "rejected" → t.order_type = "delivery" →
       t.order_id = some oid → allDigits oid = true →
       db.ordersTableExists = true →
       db.orders.find? (fun x => x.id == digitsVal oid) = some o →
       ∃ o', db'.orders.find? (fun x => x.id == digitsVal oid) = some o' ∧
         o'.status = "canceled") ∧
    (∀ oid o, t.status = "rejected" → t.order_type = "pickup" →
       t.order_id = some oid → allDigits oid = true →
       db.pickupTableExists = true →
       db.pickup_orders.find? (fun x => x.id == digitsVal oid) = some o →
       ∃ o', db'.pickup_orders.find? (fun x => x.id == digitsVal oid) = some o' ∧
         o'.status = "canceled") ∧
    (t.status = "pending" → db'.orders = db.orders ∧ db'.pickup_orders = db.pickup_orders) := by
  obtain ⟨existing, hns, htab, hfind, ht, hdb'⟩ := transition_ok_inv h
  have hne := allowed_ne_empty hns
  have hstat : t.status = resolveNextStatus req.status req.action := formatted_status ht hne
  subst hdb'
  refine ⟨?_, ?_, ?_, ?_, ?_⟩
  · intro oid o hv htyp hoid hdig hot hofind
    rw [hstat] at hv
    rw [hv] at *
    have hmap : mapTransactionStatusToOrderStatus "verified" = some "successful" := rfl
    have htype : (t.order_type == "pickup") = false := by rw [htyp]; decide
    obtain ⟨ho1, _⟩ := propagateOrderStatus_delivery
      (updateTransactions db id "verified" req.notes now) hoid
      (allDigits_ne_empty hdig) htype hot hmap
    rw [ho1]
    exact ⟨setStatus "processing" o,
      propagateTable_find? hdig _ (deriveOrderStatus false "successful") hofind, rfl⟩
  · intro oid o hv htyp hoid hdig hot hofind
    rw [hstat] at hv
    rw [hv] at *
    have hmap : mapTransactionStatusToOrderStatus "verified" = some "successful" := rfl
    have htype : (t.order_type == "pickup") = true := by rw [htyp]; decide
    obtain ⟨ho1, _⟩ := propagateOrderStatus_pickup
      (updateTransactions db id "verified" req.notes now) hoid
      (allDigits_ne_empty hdig) htype hot hmap
    rw [ho1]
    exact ⟨setStatus "pending" o,
      propagateTable_find? hdig _ (deriveOrderStatus true "successful") hofind, rfl⟩
  · intro oid o hv htyp hoid hdig hot hofind
    rw [hstat] at hv
    rw [hv] at *
    have hmap : mapTransactionStatusToOrderStatus "rejected" = some "failed" := rfl
    have htype : (t.order_type == "pickup") = false := by rw [htyp]; decide
    obtain ⟨ho1, _⟩ := propagateOrderStatus_delivery
      (updateTransactions db id "rejected" req.notes now) hoid
      (allDigits_ne_empty hdig) htype hot hmap
    rw [ho1]
    exact ⟨setStatus "canceled" o,
      propagateTable_find? hdig _ (deriveOrderStatus false "failed") hofind, rfl⟩
  · intro oid o hv htyp hoid hdig hot hofind
    rw [hstat] at hv
    rw [hv] at *
    have hmap : mapTransactionStatusToOrderStatus "rejected" = some "failed" := rfl
    have htype : (t.order_type == "pickup") = true := by rw [htyp]; decide
    obtain ⟨ho1, _⟩ := propagateOrderStatus_pickup
      (updateTransactions db id "rejected" req.notes now) hoid
      (allDigits_ne_empty hdig) htype hot hmap
    rw [ho1]
    exact ⟨setStatus "canceled" o,
      propagateTable_find? hdig _ (deriveOrderStatus true "failed") hofind, rfl⟩
  · intro hp
    rw [hstat] at hp
    rw [hp] at *
    have hmap : mapTransactionStatusToOrderStatus "pending" = none := rfl
    rw [propagateOrderStatus_none hmap]
    exact ⟨rfl, rfl⟩

/-- A concrete pending delivery transaction referencing order 42, used as
a fixture by the concrete instantiations below. -/
def sampleTr : TransactionRow :=
  { id := 1, order_id := some "42", payment_method := "bank_transfer", amount := 5000,
    customer_name := none, customer_email := none, customer_phone := none,
    transaction_reference := "TRANS-1", notes := none, status := "pending",
    order_type := "delivery", created_at := 0, updated_at := 0 }

/-- A concrete store holding `sampleTr` and the order row it references. -/
def sampleDB : DB :=
  { emptyDB with
    confirmationsTableExists := true
    nextId := 2
    transactions := [sampleTr]
    orders := [{ id := 42, order_id := none, status := "pending", customer_name := none,
                 customer_email := none, customer_phone := none }] }

/-- The transaction returned by verifying `sampleTr` at time 10. -/
def sampleVerifiedTr : TransactionRow :=
  formatTransactionRow (applyUpdate "verified" none 10 sampleTr)

/-- The store after verifying `sampleTr` at time 10. -/
def sampleVerifiedDB : DB :=
  propagateOrderStatus (updateTransactions sampleDB 1 "verified" none 10)
    sampleVerifiedTr "verified"

theorem c1_transition_propagates_derived_order_status_witness :
    ∃ o', sampleVerifiedDB.orders.find? (fun x => x.id == digitsVal "42") = some o' ∧
      o'.status = "processing" :=
  (c1_transition_propagates_derived_order_status sampleDB 1 { status := some "verified" } 10
      sampleVerifiedDB sampleVerifiedTr rfl).1 "42"
    { id := 42, order_id := none, status := "pending", customer_name := none,
      customer_email := none, customer_phone := none }
    rfl rfl rfl (by decide) rfl (by decide)

/-! ### C2 -/

/-- Inversion of a successful creation. -/
theorem create_ok_inv {db : DB} {i : CreateInput} {now : Nat}
    {db' : DB} {resp : CreateResponse}
    (h : confirmPayment db i now = .ok (db', resp)) :
    i.payment_method ≠ "" ∧
    db' = { db with
            confirmationsTableExists := true
            nextId := db.nextId + 1
            transactions := db.transactions ++ [createdRow db i now] } ∧
    resp = { id := db.nextId, order_id := i.order_id, status := "pending" } := by
  simp only [confirmPayment] at h
  split at h
  · simp at h
  · rename_i hpm
    simp only [Except.ok.injEq, Prod.mk.injEq] at h
    exact ⟨hpm, h.1.symm, h.2.symm⟩

/-- One step preserves the status domain of all stored transactions. -/
theorem applyOp_status_domain {db : DB}
    (hdb : ∀ t ∈ db.transactions, t.status ∈ allowedStatuses) (op : Op) :
    ∀ t ∈ (applyOp db op).transactions, t.status ∈ allowedStatuses := by
  cases op with
  | create i now =>
    simp only [applyOp]
    cases hc : confirmPayment db i now with
    | error e => exact hdb
    | ok p =>
      obtain ⟨dbn, resp⟩ := p
      obtain ⟨-, hdbn, -⟩ := create_ok_inv hc
      subst hdbn
      intro t ht
      simp only [List.mem_append, List.mem_singleton] at ht
      rcases ht with ht | ht
      · exact hdb t ht
      · subst ht
        simp [createdRow, allowedStatuses]
  | transition id req now =>
    simp only [applyOp]
    cases hc : updatePaymentTransactionStatus db id req now with
    | error e => exact hdb
    | ok p =>
      obtain ⟨dbn, u⟩ := p
      obtain ⟨existing, hns, -, -, -, hdbn⟩ := transition_ok_inv hc
      subst hdbn
      intro t ht
      rw [propagateOrderStatus_transactions] at ht
      simp only [updateTransactions, List.mem_map] at ht
      obtain ⟨x, hx, hxt⟩ := ht
      by_cases hid : (x.id == id) = true
      · rw [if_pos hid] at hxt
        subst hxt
        simp only [applyUpdate]
        simpa [allowedStatuses] using hns
      · rw [if_neg (by simpa using hid)] at hxt
        subst hxt
        exact hdb x hx

/-- Every reachable state (from the empty store) holds only transactions
whose status is in the allowed domain. -/
theorem run_status_domain (ops : List Op) :
    ∀ t ∈ (run emptyDB ops).transactions, t.status ∈ allowedStatuses := by
  have hgen : ∀ (db : DB), (∀ t ∈ db.transactions, t.status ∈ allowedStatuses) →
      ∀ t ∈ (run db ops).transactions, t.status ∈ allowedStatuses := by
    induction ops with
    | nil => intro db hdb; exact hdb
    | cons op rest ih =>
        intro db hdb
        exact ih (applyOp db op) (applyOp_status_domain hdb op)
  exact hgen emptyDB (by simp [emptyDB])

/-- C2 counterexample: the claimed invariant fails — after
create + transition-to-`verified`, a further transition request with
status `pending` succeeds and moves the transaction out of the terminal
`verified` status, back to `pending`. -/
theorem c2_status_never_leaves_terminal_counterexample :
    statusOf (run emptyDB
      [.create { payment_method := "bank_transfer" } 1,
       .transition 1 { status := some "verified" } 2]) 1 = some "verified" ∧
    statusOf (run emptyDB
      [.create { payment_method := "bank_transfer" } 1,
       .transition 1 { status := some "verified" } 2,
       .transition 1 { status := some "pending" } 3]) 1 = some "pending" :=
  ⟨by decide, by decide⟩

/-- C2 (amended): a transaction's status always stays within
{`pending`, `verified`, `rejected`}, and every successful transition sets
it to the requested resolved status regardless of the current value — so
the `pending` → terminal moves exist, but terminal statuses are not
sticky: a `verified` or `rejected` transaction can be moved back to
`pending` or to the other value by a later transition. -/
theorem c2_amended_status_domain_and_unconditional_overwrite :
    (∀ ops : List Op, ∀ t ∈ (run emptyDB ops).transactions,
       t.status ∈ allowedStatuses) ∧
    (∀ (db : DB) (id : Nat) (req : TransitionRequest) (now : Nat)
       (db' : DB) (t : TransactionRow),
       updatePaymentTransactionStatus db id req now = .ok (db', t) →
       t.status = resolveNextStatus req.status req.action) := by
  refine ⟨run_status_domain, ?_⟩
  intro db id req now db' t h
  obtain ⟨existing, hns, -, -, ht, -⟩ := transition_ok_inv h
  exact formatted_status ht (allowed_ne_empty hns)

theorem c2_amended_status_domain_and_unconditional_overwrite_witness :
    sampleTr.status ∈ allowedStatuses ∧ sampleVerifiedTr.status = "verified" := by
  constructor
  · exact c2_amended_status_domain_and_unconditional_overwrite.1
      [.create { payment_method := "bank_transfer", order_id := some "42",
                 amount := some 5000, transaction_reference := some "TRANS-1" } 0]
      sampleTr (by decide)
  · exact c2_amended_status_domain_and_unconditional_overwrite.2 sampleDB 1
      { status := some "verified" } 10 sampleVerifiedDB sampleVerifiedTr rfl

/-! ### C3 -/

/-- Forward lemma: when the resolved status is allowed, the table exists
and the row is found, the transition succeeds with the exact updated and
propagated state. -/
theorem transition_ok_of (d : DB) (id : Nat) (req : TransitionRequest) (now : Nat)
    {existing : TransactionRow}
    (hns : allowedStatuses.contains (resolveNextStatus req.status req.action) = true)
    (htab : d.confirmationsTableExists = true)
    (hfind : d.transactions.find? (fun x => x.id == id) = some existing) :
    updatePaymentTransactionStatus d id req now
      = .ok
        (propagateOrderStatus
          (updateTransactions d id (resolveNextStatus req.status req.action) req.notes now)
          (formatTransactionRow
            (applyUpdate (resolveNextStatus req.status req.action) req.notes now existing))
          (resolveNextStatus req.status req.action),
         formatTransactionRow
           (applyUpdate (resolveNextStatus req.status req.action) req.notes now existing)) := by
  simp only [updatePaymentTransactionStatus, htab, hfind]
  simp [hns]
  simpa [allowedStatuses] using hns

/-- C3 counterexample: the `action` input shape does not accept the value
`rejected` — it resolves to no status at all and the call is rejected as a
validation error instead of transitioning the transaction to `rejected`. -/
theorem c3_action_value_domain_counterexample :
    resolveNextStatus none (some "rejected") = "" ∧
    updatePaymentTransactionStatus sampleDB 1 { action := some "rejected" } 10
      = .error .validationError :=
  ⟨by decide, rfl⟩

/-- C3 (amended): the transition operation accepts two input shapes: a
direct status value in {`pending`, `verified`, `rejected`}, or an action
value in {`approve`, `decline`} mapped respectively to
`verified`/`rejected`; with either shape the resulting resolved status is
the mapped value. -/
theorem c3_amended_both_input_shapes_supported
    (db : DB) (id : Nat) (now : Nat) (existing : TransactionRow)
    (htab : db.confirmationsTableExists = true)
    (hfind : db.transactions.find? (fun x => x.id == id) = some existing) :
    (∀ s ∈ allowedStatuses,
       ∃ db' t, updatePaymentTransactionStatus db id
           { status := some s, action := none, notes := none } now = .ok (db', t) ∧
         t.status = s) ∧
    (∃ db' t, updatePaymentTransactionStatus db id
        { status := none, action := some "approve", notes := none } now = .ok (db', t) ∧
      t.status = "verified") ∧
    (∃ db' t, updatePaymentTransactionStatus db id
        { status := none, action := some "decline", notes := none } now = .ok (db', t) ∧
      t.status = "rejected") := by
  refine ⟨?_, ?_, ?_⟩
  · intro s hs
    simp only [allowedStatuses, List.mem_cons, List.not_mem_nil, or_false] at hs
    rcases hs with rfl | rfl | rfl
    · exact ⟨_, _, transition_ok_of _ _ _ now (by decide) htab hfind, rfl⟩
    · exact ⟨_, _, transition_ok_of _ _ _ now (by decide) htab hfind, rfl⟩
    · exact ⟨_, _, transition_ok_of _ _ _ now (by decide) htab hfind, rfl⟩
  · exact ⟨_, _, transition_ok_of _ _ _ now (by decide) htab hfind, rfl⟩
  · exact ⟨_, _, transition_ok_of _ _ _ now (by decide) htab hfind, rfl⟩

theorem c3_amended_both_input_shapes_supported_witness :
    ∃ db' t, updatePaymentTransactionStatus sampleDB 1
        { status := some "verified", action := none, notes := none } 10 = .ok (db', t) ∧
      t.status = "verified" :=
  (c3_amended_both_input_shapes_supported sampleDB 1 10 sampleTr rfl (by decide)).1
    "verified" (by decide)

/-! ### C4 -/

/-- A missing (`null`) order id disables propagation entirely. -/
theorem propagateOrderStatus_no_oid {db : DB} {t : TransactionRow} {ns : String}
    (hoid : t.order_id = none) : propagateOrderStatus db t ns = db := by
  unfold propagateOrderStatus
  cases hm : mapTransactionStatusToOrderStatus ns
  · rfl
  · rw [hoid]

/-- An empty-string order id is falsy in JS and disables propagation. -/
theorem propagateOrderStatus_empty_oid {db : DB} {t : TransactionRow} {ns : String}
    (hoid : t.order_id = some "") : propagateOrderStatus db t ns = db := by
  unfold propagateOrderStatus
  cases hm : mapTransactionStatusToOrderStatus ns
  · rfl
  · rw [hoid]
    simp

/-- A missing `orders` table disables delivery-side propagation. -/
theorem propagateOrderStatus_delivery_no_table {db : DB} {t : TransactionRow}
    {ns oid : String}
    (hoid : t.order_id = some oid) (hne : oid ≠ "")
    (htype : (t.order_type == "pickup") = false)
    (htab : db.ordersTableExists = false) :
    propagateOrderStatus db t ns = db := by
  unfold propagateOrderStatus
  cases hm : mapTransactionStatusToOrderStatus ns
  · rfl
  · rw [hoid]
    simp [hne, htype, htab]

/-- A missing `pickup_orders` table disables pickup-side propagation. -/
theorem propagateOrderStatus_pickup_no_table {db : DB} {t : TransactionRow}
    {ns oid : String}
    (hoid : t.order_id = some oid) (hne : oid ≠ "")
    (htype : (t.order_type == "pickup") = true)
    (htab : db.pickupTableExists = false) :
    propagateOrderStatus db t ns = db := by
  unfold propagateOrderStatus
  cases hm : mapTransactionStatusToOrderStatus ns
  · rfl
  · rw [hoid]
    simp [hne, htype, htab]

/-- `find?` through the whole-table id-keyed update. -/
theorem find?_map_updateById (l : List TransactionRow) (id : Nat)
    (u : TransactionRow → TransactionRow) (hu : ∀ x, (u x).id = x.id) :
    (l.map (fun x => if x.id == id then u x else x)).find? (fun x => x.id == id)
      = (l.find? (fun x => x.id == id)).map u := by
  induction l with
  | nil => rfl
  | cons x rest ih =>
    by_cases h : (x.id == id) = true
    · have hux : ((u x).id == id) = true := by rw [hu x]; exact h
      rw [List.map_cons, if_pos h]
      simp only [List.find?, hux, h, Option.map_some']
    · have h' : (x.id == id) = false := by simpa using h
      rw [List.map_cons, if_neg h]
      simp only [List.find?, h']
      exact ih

/-- After the id-keyed update, every stored row matching the id carries
the written status. -/
theorem status_after_update (l : List TransactionRow) (id : Nat) (ns : String)
    (rn : Option String) (now : Nat) :
    ∀ x ∈ l.map (fun y => if y.id == id then applyUpdate ns rn now y else y),
      (x.id == id) = true → x.status = ns := by
  intro x hx hid
  obtain ⟨y, hy, hxy⟩ := List.mem_map.mp hx
  by_cases h : (y.id == id) = true
  · rw [if_pos h] at hxy
    subst hxy
    rfl
  · rw [if_neg (by simpa using h)] at hxy
    subst hxy
    exact absurd hid h

/-- Mapping statuses through the id-keyed update changes nothing when all
matching rows already carry the written status. -/
theorem map_status_update (l : List TransactionRow) (id : Nat) (ns : String)
    (rn : Option String) (now' : Nat)
    (hl : ∀ x ∈ l, (x.id == id) = true → x.status = ns) :
    (l.map (fun x => if x.id == id then applyUpdate ns rn now' x else x)).map
        (fun x => x.status)
      = l.map (fun x => x.status) := by
  rw [List.map_map]
  apply List.map_congr_left
  intro x hx
  by_cases h : (x.id == id) = true
  · simp only [Function.comp, if_pos h, applyUpdate]
    exact (hl x hx h).symm
  · simp only [Function.comp, if_neg h]

/-- Re-propagating the same resolved status (for a transaction with the
same order reference) is a no-op on both order tables. -/
theorem propagateOrderStatus_idem_tables (dbA dbB : DB) (t t' : TransactionRow)
    (ns : String)
    (hoid : t'.order_id = t.order_id) (htype : t'.order_type = t.order_type)
    (hord : dbB.orders = (propagateOrderStatus dbA t ns).orders)
    (hpick : dbB.pickup_orders = (propagateOrderStatus dbA t ns).pickup_orders)
    (hot : dbB.ordersTableExists = dbA.ordersTableExists)
    (hpt : dbB.pickupTableExists = dbA.pickupTableExists)
    (hoc : dbB.ordersHasOrderIdCol = dbA.ordersHasOrderIdCol)
    (hpc : dbB.pickupHasOrderIdCol = dbA.pickupHasOrderIdCol) :
    (propagateOrderStatus dbB t' ns).orders = dbB.orders ∧
    (propagateOrderStatus dbB t' ns).pickup_orders = dbB.pickup_orders := by
  cases hmap : mapTransactionStatusToOrderStatus ns with
  | none =>
      rw [propagateOrderStatus_none hmap]
      exact ⟨rfl, rfl⟩
  | some tos =>
      cases hoidA : t.order_id with
      | none =>
          rw [propagateOrderStatus_no_oid (hoid.trans hoidA)]
          exact ⟨rfl, rfl⟩
      | some oid =>
          by_cases hemp : oid = ""
          · subst hemp
            rw [propagateOrderStatus_empty_oid (hoid.trans hoidA)]
            exact ⟨rfl, rfl⟩
          · by_cases htyp : (t.order_type == "pickup") = true
            · have htyp' : (t'.order_type == "pickup") = true := by
                rw [htype]; exact htyp
              by_cases hptE : dbA.pickupTableExists = true
              · have h1 := propagateOrderStatus_pickup dbA (t := t)
                  hoidA hemp htyp hptE hmap
                have h2 := propagateOrderStatus_pickup dbB (t := t')
                  (hoid.trans hoidA) hemp htyp' (hpt.trans hptE) hmap
                refine ⟨h2.2, ?_⟩
                rw [h2.1, hpc, hpick, h1.1]
                exact propagateTable_idem _ _ _ _
              · have hptE' : dbA.pickupTableExists = false := by simpa using hptE
                rw [propagateOrderStatus_pickup_no_table (hoid.trans hoidA) hemp htyp'
                  (hpt.trans hptE')]
                exact ⟨rfl, rfl⟩
            · have htyp0 : (t.order_type == "pickup") = false := by simpa using htyp
              have htyp' : (t'.order_type == "pickup") = false := by
                rw [htype]; exact htyp0
              by_cases hotE : dbA.ordersTableExists = true
              · have h1 := propagateOrderStatus_delivery dbA (t := t)
                  hoidA hemp htyp0 hotE hmap
                have h2 := propagateOrderStatus_delivery dbB (t := t')
                  (hoid.trans hoidA) hemp htyp' (hot.trans hotE) hmap
                refine ⟨?_, h2.2⟩
                rw [h2.1, hoc, hord, h1.1]
                exact propagateTable_idem _ _ _ _
              · have hotE' : dbA.ordersTableExists = false := by simpa using hotE
                rw [propagateOrderStatus_delivery_no_table (hoid.trans hoidA) hemp htyp'
                  (hot.trans hotE')]
                exact ⟨rfl, rfl⟩

/-- C4: verifying the same transaction twice in a row does not error, and
the second call leaves the transaction statuses and both order tables
exactly as after the first call (its only downstream effect is re-applying
the identical derived order status). -/
theorem c4_transition_verified_is_idempotent
    (db : DB) (id : Nat) (now now' : Nat) (db1 : DB) (t1 : TransactionRow)
    (h1 : updatePaymentTransactionStatus db id
        { status := some "verified", action := none, notes := none } now = .ok (db1, t1)) :
    ∃ db2 t2,
      updatePaymentTransactionStatus db1 id
          { status := some "verified", action := none, notes := none } now' = .ok (db2, t2) ∧
      t2.status = t1.status ∧
      db2.orders = db1.orders ∧
      db2.pickup_orders = db1.pickup_orders ∧
      db2.transactions.map (fun x => x.status) = db1.transactions.map (fun x => x.status) := by
  obtain ⟨existing, hns, htab, hfind, ht, hdb1⟩ := transition_ok_inv h1
  have ht' : t1 = formatTransactionRow (applyUpdate "verified" none now existing) := ht
  clear ht hns h1
  subst ht'
  have hdb1' : db1 = propagateOrderStatus (updateTransactions db id "verified" none now)
      (formatTransactionRow (applyUpdate "verified" none now existing)) "verified" := hdb1
  clear hdb1
  subst hdb1'
  set T1 := formatTransactionRow (applyUpdate "verified" none now existing) with hT1def
  set U1 := updateTransactions db id "verified" none now with hU1def
  set D1 := propagateOrderStatus U1 T1 "verified" with hD1def
  have htab1 : D1.confirmationsTableExists = true := by
    rw [hD1def, (propagateOrderStatus_frame _ _ _).1, hU1def]
    exact htab
  have hfind1 : D1.transactions.find? (fun x => x.id == id)
      = some (applyUpdate "verified" none now existing) := by
    rw [hD1def, propagateOrderStatus_transactions, hU1def]
    show (db.transactions.map
        (fun x => if x.id == id then applyUpdate "verified" none now x else x)).find?
        (fun x => x.id == id) = _
    rw [find?_map_updateById db.transactions id (applyUpdate "verified" none now)
      (fun x => rfl), hfind]
    rfl
  have hall : ∀ x ∈ D1.transactions, (x.id == id) = true → x.status = "verified" := by
    rw [hD1def, propagateOrderStatus_transactions, hU1def]
    exact status_after_update db.transactions id "verified" none now
  refine ⟨_, _, transition_ok_of D1 id
      { status := some "verified", action := none, notes := none } now'
      (by decide) htab1 hfind1, rfl, ?_, ?_, ?_⟩
  · exact (propagateOrderStatus_idem_tables U1
      (updateTransactions D1 id "verified" none now') T1
      (formatTransactionRow (applyUpdate "verified" none now'
        (applyUpdate "verified" none now existing)))
      "verified" rfl rfl rfl rfl
      (propagateOrderStatus_frame U1 T1 "verified").2.1
      (propagateOrderStatus_frame U1 T1 "verified").2.2.1
      (propagateOrderStatus_frame U1 T1 "verified").2.2.2.1
      (propagateOrderStatus_frame U1 T1 "verified").2.2.2.2.1).1
  · exact (propagateOrderStatus_idem_tables U1
      (updateTransactions D1 id "verified" none now') T1
      (formatTransactionRow (applyUpdate "verified" none now'
        (applyUpdate "verified" none now existing)))
      "verified" rfl rfl rfl rfl
      (propagateOrderStatus_frame U1 T1 "verified").2.1
      (propagateOrderStatus_frame U1 T1 "verified").2.2.1
      (propagateOrderStatus_frame U1 T1 "verified").2.2.2.1
      (propagateOrderStatus_frame U1 T1 "verified").2.2.2.2.1).2
  · rw [propagateOrderStatus_transactions]
    exact map_status_update D1.transactions id "verified" none now' hall

/-- A concrete double-verify instantiation of C4 on the sample store. -/
theorem c4_transition_verified_is_idempotent_witness :
    ∃ db2 t2,
      updatePaymentTransactionStatus sampleVerifiedDB 1
          { status := some "verified", action := none, notes := none } 20 = .ok (db2, t2) ∧
      t2.status = sampleVerifiedTr.status ∧
      db2.orders = sampleVerifiedDB.orders ∧
      db2.pickup_orders = sampleVerifiedDB.pickup_orders ∧
      db2.transactions.map (fun x => x.status)
        = sampleVerifiedDB.transactions.map (fun x => x.status) :=
  c4_transition_verified_is_idempotent sampleDB 1 10 20 sampleVerifiedDB sampleVerifiedTr rfl

/-! ### C5 -/

/-- C5: a transition whose resolved status is not allowed fails as a
validation error, and a transition (with an allowed status) on an id with
no matching transaction fails as not-found; in both cases the database —
transactions, orders and pickup rows alike — is completely unchanged. -/
theorem c5_validation_and_not_found_abort_without_mutation
    (db : DB) (id : Nat) (req : TransitionRequest) (now : Nat) :
    (¬ allowedStatuses.contains (resolveNextStatus req.status req.action) = true →
       updatePaymentTransactionStatus db id req now = .error .validationError ∧
       applyOp db (.transition id req now) = db) ∧
    (allowedStatuses.contains (resolveNextStatus req.status req.action) = true →
       db.confirmationsTableExists = true →
       db.transactions.find? (fun x => x.id == id) = none →
       updatePaymentTransactionStatus db id req now = .error .notFound ∧
       applyOp db (.transition id req now) = db) := by
  constructor
  · intro h
    have hm : resolveNextStatus req.status req.action ∉ allowedStatuses := by
      simpa [allowedStatuses] using h
    have he : updatePaymentTransactionStatus db id req now = .error .validationError := by
      simp [updatePaymentTransactionStatus, hm]
    exact ⟨he, by simp [applyOp, he]⟩
  · intro hns htab hfind
    have hm : resolveNextStatus req.status req.action ∈ allowedStatuses := by
      simpa [allowedStatuses] using hns
    have he : updatePaymentTransactionStatus db id req now = .error .notFound := by
      simp [updatePaymentTransactionStatus, hm, htab, hfind]
    exact ⟨he, by simp [applyOp, he]⟩

theorem c5_validation_and_not_found_abort_without_mutation_witness :
    (updatePaymentTransactionStatus sampleDB 1 { status := some "bogus" } 10
        = .error .validationError ∧
     applyOp sampleDB (.transition 1 { status := some "bogus" } 10) = sampleDB) ∧
    (updatePaymentTransactionStatus sampleDB 99 { status := some "verified" } 10
        = .error .notFound ∧
     applyOp sampleDB (.transition 99 { status := some "verified" } 10) = sampleDB) :=
  ⟨(c5_validation_and_not_found_abort_without_mutation sampleDB 1 _ 10).1 (by decide),
   (c5_validation_and_not_found_abort_without_mutation sampleDB 99 _ 10).2
     (by decide) rfl (by decide)⟩

/-! ### C6 -/

/-- C6 counterexample: a negative parsed amount is persisted unchanged —
`parseFloat(amount) || 0` only replaces `NaN` (and `0`) by `0`, it does
not clamp negative values, so the stored amount can be `< 0`. -/
theorem c6_non_negative_amount_counterexample :
    (run emptyDB [.create { payment_method := "cash", amount := some (-5) } 0]).transactions.map
        (fun t => t.amount) = [-5] ∧
    ((-5 : Int) < 0) :=
  ⟨by decide, by decide⟩

/-- C6 (amended): inputs that fail to parse as a number are stored as 0,
and otherwise the parsed amount is stored unchanged — including negative
values, so the persisted amount is not guaranteed non-negative. -/
theorem c6_amended_amount_defaults_zero_on_parse_failure
    (db : DB) (i : CreateInput) (now : Nat) (db' : DB) (resp : CreateResponse)
    (h : confirmPayment db i now = .ok (db', resp)) :
    db'.transactions.map (fun t => t.amount)
      = db.transactions.map (fun t => t.amount) ++ [i.amount.getD 0] := by
  obtain ⟨-, hdb, -⟩ := create_ok_inv h
  subst hdb
  simp only [List.map_append, List.map_cons, List.map_nil]
  cases ha : i.amount <;> simp [createdRow, ha]

theorem c6_amended_amount_defaults_zero_on_parse_failure_witness :
    (run emptyDB [.create { payment_method := "cash", amount := none } 7]).transactions.map
        (fun t => t.amount) = [0] := by
  have h := c6_amended_amount_defaults_zero_on_parse_failure emptyDB
    { payment_method := "cash", amount := none } 7
    (run emptyDB [.create { payment_method := "cash", amount := none } 7])
    { id := 1, order_id := none, status := "pending" } rfl
  exact h.trans rfl

/-! ### C7 -/

theorem trans_ref_ne_empty (now : Nat) : ("TRANS-" ++ toString now) ≠ "" := by
  intro he
  have hlen := congrArg String.length he
  rw [String.length_append] at hlen
  have h6 : "TRANS-".length = 6 := rfl
  have h0 : "".length = 0 := rfl
  omega

/-- C7: creating with a non-empty payment method succeeds, the response
and the stored row both carry status `pending`, and the stored
`transaction_reference` is non-empty: it equals the supplied value when a
non-empty one was given and is otherwise synthesized as
`TRANS-<current-epoch-millis>`. -/
theorem c7_create_pending_with_reference
    (db : DB) (i : CreateInput) (now : Nat) (hpm : i.payment_method ≠ "") :
    ∃ db' resp, confirmPayment db i now = .ok (db', resp) ∧
      resp.status = "pending" ∧
      db'.transactions = db.transactions ++ [createdRow db i now] ∧
      (createdRow db i now).status = "pending" ∧
      (createdRow db i now).transaction_reference ≠ "" ∧
      (∀ v, i.transaction_reference = some v → v ≠ "" →
        (createdRow db i now).transaction_reference = v) ∧
      ((i.transaction_reference = none ∨ i.transaction_reference = some "") →
        (createdRow db i now).transaction_reference = "TRANS-" ++ toString now) := by
  have hok : confirmPayment db i now = .ok
      ({ db with
          confirmationsTableExists := true
          nextId := db.nextId + 1
          transactions := db.transactions ++ [createdRow db i now] },
        { id := (createdRow db i now).id, order_id := i.order_id, status := "pending" }) := by
    simp [confirmPayment, hpm]
  refine ⟨_, _, hok, rfl, rfl, rfl, ?_, ?_, ?_⟩
  · cases htr : i.transaction_reference with
    | none => simp [createdRow, jsOr, jsTruthy, htr, trans_ref_ne_empty now]
    | some v =>
        by_cases hv : v = ""
        · subst hv
          simp [createdRow, jsOr, jsTruthy, htr, trans_ref_ne_empty now]
        · have hb : (v == "") = false := by simpa using hv
          simp [createdRow, jsOr, jsTruthy, htr, hb, hv]
  · intro v hv hne
    have hb : (v == "") = false := by simpa using hne
    simp [createdRow, jsOr, jsTruthy, hv, hb]
  · intro hcase
    rcases hcase with hcase | hcase <;> simp [createdRow, jsOr, jsTruthy, hcase]

theorem c7_create_pending_with_reference_witness :
    ∃ db' resp,
      confirmPayment emptyDB { payment_method := "bank_transfer" } 99 = .ok (db', resp) ∧
      resp.status = "pending" ∧
      db'.transactions = emptyDB.transactions
        ++ [createdRow emptyDB { payment_method := "bank_transfer" } 99] ∧
      (createdRow emptyDB { payment_method := "bank_transfer" } 99).status = "pending" ∧
      (createdRow emptyDB { payment_method := "bank_transfer" } 99).transaction_reference ≠ "" ∧
      (∀ v, ({ payment_method := "bank_transfer" } : CreateInput).transaction_reference = some v →
        v ≠ "" →
        (createdRow emptyDB { payment_method := "bank_transfer" } 99).transaction_reference = v) ∧
      ((({ payment_method := "bank_transfer" } : CreateInput).transaction_reference = none ∨
        ({ payment_method := "bank_transfer" } : CreateInput).transaction_reference = some "") →
        (createdRow emptyDB { payment_method := "bank_transfer" } 99).transaction_reference
          = "TRANS-" ++ toString 99) :=
  c7_create_pending_with_reference emptyDB { payment_method := "bank_transfer" } 99 (by decide)

/-! ### C8 -/

theorem jsTruthy_some {x : Option String} (h : jsTruthy x = true) :
    ∃ s, x = some s ∧ s ≠ "" := by
  cases x with
  | none => simp [jsTruthy] at h
  | some s =>
      refine ⟨s, rfl, ?_⟩
      simpa [jsTruthy] using h

/-- The displayed name of one list row, as a function of the backfilled
customer triple. -/
theorem formatListRow_customer_name (db : DB) (row : TransactionRow) :
    (formatListRow db row).customer_name =
      match (if jsTruthy (backfillCustomer db (formatTransactionRow row)).1
             then (backfillCustomer db (formatTransactionRow row)).1
             else jsOr (backfillCustomer db (formatTransactionRow row)).2.1
                    (jsOr (backfillCustomer db (formatTransactionRow row)).2.2 none)) with
      | some s => if s = "" then "—" else s
      | none => "—" := rfl

/-- Per-row analysis of the list formatting: the displayed name is never
the empty string, and when the name is still blank after the order-detail
backfill it falls back to the email, then the phone, then the em-dash. -/
theorem c8_aux (db : DB) (row : TransactionRow) :
    (formatListRow db row).customer_name ≠ "" ∧
    (jsTruthy (backfillCustomer db (formatTransactionRow row)).1 = false →
      (jsTruthy (backfillCustomer db (formatTransactionRow row)).2.1 = true →
        (backfillCustomer db (formatTransactionRow row)).2.1
          = some (formatListRow db row).customer_name) ∧
      (jsTruthy (backfillCustomer db (formatTransactionRow row)).2.1 = false →
       jsTruthy (backfillCustomer db (formatTransactionRow row)).2.2 = true →
        (backfillCustomer db (formatTransactionRow row)).2.2
          = some (formatListRow db row).customer_name) ∧
      (jsTruthy (backfillCustomer db (formatTransactionRow row)).2.1 = false →
       jsTruthy (backfillCustomer db (formatTransactionRow row)).2.2 = false →
        (formatListRow db row).customer_name = "—")) := by
  rw [formatListRow_customer_name]
  by_cases h1 : jsTruthy (backfillCustomer db (formatTransactionRow row)).1 = true
  · obtain ⟨s, hs, hsne⟩ := jsTruthy_some h1
    rw [if_pos h1, hs]
    simp only [if_neg hsne]
    exact ⟨hsne, fun hc => by simp [jsTruthy, hsne] at hc⟩
  · have h1' : jsTruthy (backfillCustomer db (formatTransactionRow row)).1 = false := by
      simpa using h1
    rw [if_neg h1]
    simp only [jsOr]
    by_cases h2 : jsTruthy (backfillCustomer db (formatTransactionRow row)).2.1 = true
    · obtain ⟨s, hs, hsne⟩ := jsTruthy_some h2
      rw [if_pos h2, hs]
      simp only [if_neg hsne]
      exact ⟨hsne, fun _ => ⟨fun _ => by simp,
        fun hc => by simp [jsTruthy, hsne] at hc,
        fun hc _ => by simp [jsTruthy, hsne] at hc⟩⟩
    · have h2' : jsTruthy (backfillCustomer db (formatTransactionRow row)).2.1 = false := by
        simpa using h2
      rw [if_neg h2]
      by_cases h3 : jsTruthy (backfillCustomer db (formatTransactionRow row)).2.2 = true
      · obtain ⟨s, hs, hsne⟩ := jsTruthy_some h3
        rw [if_pos h3, hs]
        simp only [if_neg hsne]
        exact ⟨hsne, fun _ => ⟨fun hc => absurd hc (by simp [h2']),
          fun _ _ => by simp,
          fun _ hc => by simp [jsTruthy, hsne] at hc⟩⟩
      · have h3' : jsTruthy (backfillCustomer db (formatTransactionRow row)).2.2 = false := by
          simpa using h3
        rw [if_neg h3]
        exact ⟨by decide, fun _ => ⟨fun hc => absurd hc (by simp [h2']),
          fun _ hc => absurd hc (by simp [h3']),
          fun _ _ => rfl⟩⟩

/-- C8: `list()` never returns a row with an empty-string customer name;
when the stored-plus-backfilled name is still blank, the displayed value
is the customer email if present, else the customer phone if present,
else the literal em-dash placeholder. -/
theorem c8_list_rows_never_show_empty_customer_name
    (db : DB) (r : DisplayRow) (hr : r ∈ getPaymentTransactions db) :
    r.customer_name ≠ "" ∧
    ∃ row, r = formatListRow db row ∧
      (jsTruthy (backfillCustomer db (formatTransactionRow row)).1 = false →
        (jsTruthy (backfillCustomer db (formatTransactionRow row)).2.1 = true →
          (backfillCustomer db (formatTransactionRow row)).2.1 = some r.customer_name) ∧
        (jsTruthy (backfillCustomer db (formatTransactionRow row)).2.1 = false →
         jsTruthy (backfillCustomer db (formatTransactionRow row)).2.2 = true →
          (backfillCustomer db (formatTransactionRow row)).2.2 = some r.customer_name) ∧
        (jsTruthy (backfillCustomer db (formatTransactionRow row)).2.1 = false →
         jsTruthy (backfillCustomer db (formatTransactionRow row)).2.2 = false →
          r.customer_name = "—")) := by
  unfold getPaymentTransactions at hr
  split at hr
  · exact absurd hr (List.not_mem_nil r)
  · obtain ⟨row, -, hrow⟩ := List.mem_map.mp hr
    subst hrow
    exact ⟨(c8_aux db row).1, row, rfl, (c8_aux db row).2⟩

/-- A transaction stored with an empty-string customer name but a present
email, as `list()` has to display it. -/
def blankNameTr : TransactionRow :=
  { id := 1, order_id := none, payment_method := "bank_transfer", amount := 100,
    customer_name := some "", customer_email := some "user@example.com",
    customer_phone := none, transaction_reference := "TRANS-2", notes := none,
    status := "pending", order_type := "delivery", created_at := 0, updated_at := 0 }

def blankNameDB : DB :=
  { emptyDB with
    confirmationsTableExists := true
    nextId := 2
    transactions := [blankNameTr] }

theorem c8_list_rows_never_show_empty_customer_name_witness :
    (formatListRow blankNameDB blankNameTr).customer_name ≠ "" ∧
    ∃ row, formatListRow blankNameDB blankNameTr = formatListRow blankNameDB row ∧
      (jsTruthy (backfillCustomer blankNameDB (formatTransactionRow row)).1 = false →
        (jsTruthy (backfillCustomer blankNameDB (formatTransactionRow row)).2.1 = true →
          (backfillCustomer blankNameDB (formatTransactionRow row)).2.1
            = some (formatListRow blankNameDB blankNameTr).customer_name) ∧
        (jsTruthy (backfillCustomer blankNameDB (formatTransactionRow row)).2.1 = false →
         jsTruthy (backfillCustomer blankNameDB (formatTransactionRow row)).2.2 = true →
          (backfillCustomer blankNameDB (formatTransactionRow row)).2.2
            = some (formatListRow blankNameDB blankNameTr).customer_name) ∧
        (jsTruthy (backfillCustomer blankNameDB (formatTransactionRow row)).2.1 = false →
         jsTruthy (backfillCustomer blankNameDB (formatTransactionRow row)).2.2 = false →
          (formatListRow blankNameDB blankNameTr).customer_name = "—")) :=
  c8_list_rows_never_show_empty_customer_name blankNameDB
    (formatListRow blankNameDB blankNameTr) (by decide)

/-! ### C9 -/

/-- C9: the supplied status string is lowercased before validation, so any
mixed-case form of an allowed status is accepted and stored in lowercase;
the action shape, by contrast, is matched case-sensitively, so mixed-case
action values are rejected as validation errors. -/
theorem c9_status_lowercased_action_case_sensitive :
    (∀ (db : DB) (id : Nat) (now : Nat) (s : String) (existing : TransactionRow),
       db.confirmationsTableExists = true →
       db.transactions.find? (fun x => x.id == id) = some existing →
       lowerStr s ∈ allowedStatuses →
       ∃ db' t, updatePaymentTransactionStatus db id
           { status := some s, action := none, notes := none } now = .ok (db', t) ∧
         t.status = lowerStr s) ∧
    (∀ (db : DB) (id : Nat) (now : Nat),
       updatePaymentTransactionStatus db id
           { status := none, action := some "Approve", notes := none } now
         = .error .validationError ∧
       updatePaymentTransactionStatus db id
           { status := none, action := some "DECLINE", notes := none } now
         = .error .validationError) := by
  constructor
  · intro db id now s existing htab hfind hmem
    have hne : lowerStr s ≠ "" := by
      simp only [allowedStatuses, List.mem_cons, List.not_mem_nil, or_false] at hmem
      rcases hmem with h | h | h <;> rw [h] <;> decide
    have hrs : resolveNextStatus (some s) none = lowerStr s := by
      simp [resolveNextStatus, hne]
    have hcont : allowedStatuses.contains (resolveNextStatus (some s) none) = true := by
      rw [hrs]
      simpa [allowedStatuses] using hmem
    refine ⟨_, _, transition_ok_of db id
      { status := some s, action := none, notes := none } now hcont htab hfind, ?_⟩
    have hne' : resolveNextStatus (some s) none ≠ "" := by rw [hrs]; exact hne
    exact (formatted_status rfl hne').trans hrs
  · intro db id now
    exact ⟨rfl, rfl⟩

theorem c9_status_lowercased_action_case_sensitive_witness :
    (∃ db' t, updatePaymentTransactionStatus sampleDB 1
        { status := some "VERIFIED", action := none, notes := none } 10 = .ok (db', t) ∧
      t.status = lowerStr "VERIFIED") ∧
    updatePaymentTransactionStatus sampleDB 1
        { status := none, action := some "Approve", notes := none } 10
      = .error .validationError :=
  ⟨c9_status_lowercased_action_case_sensitive.1 sampleDB 1 10 "VERIFIED" sampleTr
      rfl (by decide) (by decide),
   (c9_status_lowercased_action_case_sensitive.2 sampleDB 1 10).1⟩

/-! ### C10 -/

/-- C10: a successful transition rewrites the stored transactions exactly
by the id-keyed status/notes/updated_at update — the propagation step
never touches the `payment_confirmations` table; consequently, when no
notes are supplied the notes column is unchanged, and every other column
(id, order id, payment method, amount, customer fields, reference,
created_at) is unchanged for every row. -/
theorem c10_transition_only_touches_status_notes_updated_at
    (db : DB) (id : Nat) (req : TransitionRequest) (now : Nat)
    (db' : DB) (t : TransactionRow)
    (h : updatePaymentTransactionStatus db id req now = .ok (db', t)) :
    db'.transactions = db.transactions.map
      (fun x => if x.id == id then
          applyUpdate (resolveNextStatus req.status req.action) req.notes now x
        else x) ∧
    (req.notes = none →
      db'.transactions.map (fun x => x.notes) = db.transactions.map (fun x => x.notes)) ∧
    db'.transactions.map (fun x => (x.id, x.order_id, x.payment_method, x.amount,
        x.customer_name, x.customer_email, x.customer_phone, x.transaction_reference,
        x.created_at))
      = db.transactions.map (fun x => (x.id, x.order_id, x.payment_method, x.amount,
        x.customer_name, x.customer_email, x.customer_phone, x.transaction_reference,
        x.created_at)) := by
  obtain ⟨existing, -, -, -, -, hdb'⟩ := transition_ok_inv h
  subst hdb'
  refine ⟨by rw [propagateOrderStatus_transactions]; rfl, ?_, ?_⟩
  · intro hn
    rw [propagateOrderStatus_transactions]
    show (db.transactions.map
        (fun x => if x.id == id then
            applyUpdate (resolveNextStatus req.status req.action) req.notes now x
          else x)).map (fun x => x.notes)
      = db.transactions.map (fun x => x.notes)
    rw [List.map_map]
    apply List.map_congr_left
    intro x hx
    by_cases hid : (x.id == id) = true
    · simp [Function.comp, hid, applyUpdate, hn]
    · simp [Function.comp, hid]
  · rw [propagateOrderStatus_transactions]
    show (db.transactions.map
        (fun x => if x.id == id then
            applyUpdate (resolveNextStatus req.status req.action) req.notes now x
          else x)).map (fun x => (x.id, x.order_id, x.payment_method, x.amount,
            x.customer_name, x.customer_email, x.customer_phone, x.transaction_reference,
            x.created_at))
      = db.transactions.map (fun x => (x.id, x.order_id, x.payment_method, x.amount,
            x.customer_name, x.customer_email, x.customer_phone, x.transaction_reference,
            x.created_at))
    rw [List.map_map]
    apply List.map_congr_left
    intro x hx
    by_cases hid : (x.id == id) = true
    · simp [Function.comp, hid, applyUpdate]
    · simp [Function.comp, hid]

theorem c10_transition_only_touches_status_notes_updated_at_witness :
    sampleVerifiedDB.transactions = sampleDB.transactions.map
      (fun x => if x.id == 1 then applyUpdate (resolveNextStatus (some "verified") none)
          none 10 x
        else x) ∧
    sampleVerifiedDB.transactions.map (fun x => x.notes)
      = sampleDB.transactions.map (fun x => x.notes) := by
  have h := c10_transition_only_touches_status_notes_updated_at sampleDB 1
    { status := some "verified", action := none, notes := none } 10
    sampleVerifiedDB sampleVerifiedTr rfl
  exact ⟨h.1, h.2.1 rfl⟩

end AlMubrak
